import Mathlib

/-!
Verification development for the multi-persona company research assistant
(src/app.py). The Python module is shallowly embedded: the persona registry
and the prompt table are association lists, the external chat-completion
call is an oracle parameter of type ApiRequest -> Except String String, and
session-state mutation is explicit state passing on ConvState. Fallible
Python operations (dict lookups that may raise KeyError) are modelled with
Option / Except.
-/

/-- Persona record: one value of the USER_PERSONAS table in app.py. -/
structure Persona where
  name : String
  description : String
  priorities : List String
  icon : String
deriving Repr, DecidableEq

/-- Lookup in a Python-style dict represented as an association list;
`none` models a KeyError. -/
def dictLookup {α : Type} (l : List (String × α)) (k : String) : Option α :=
  match l with
  | [] => none
  | (k', v) :: rest => if k = k' then some v else dictLookup rest k

/-- The USER_PERSONAS dict of app.py, in source order. -/
def USER_PERSONAS : List (String × Persona) :=
  [ ("sales_executive",
     { name := "Sales Executive"
     , description := "Focuses on revenue opportunities and sales strategies"
     , priorities := ["revenue growth", "client acquisition", "sales metrics"]
     , icon := "💰" })
  , ("market_researcher",
     { name := "Market Researcher"
     , description := "Focuses on market trends and competitive analysis"
     , priorities := ["market share", "industry trends", "competitive landscape"]
     , icon := "📊" })
  , ("financial_analyst",
     { name := "Financial Analyst"
     , description := "Focuses on financial metrics and ROI analysis"
     , priorities := ["financial performance", "ROI analysis", "risk assessment"]
     , icon := "💹" })
  , ("strategic_planner",
     { name := "Strategic Planner"
     , description := "Focuses on long-term strategy and growth opportunities"
     , priorities := ["strategic initiatives", "growth opportunities", "market positioning"]
     , icon := "🛣️" })
  , ("product_manager",
     { name := "Product Manager"
     , description := "Focuses on product opportunities and feature analysis"
     , priorities := ["product-market fit", "feature analysis", "customer needs"]
     , icon := "🎯" }) ]

/-- The fixed set of persona keys (the keys of USER_PERSONAS). -/
def registryKeys : List String := USER_PERSONAS.map Prod.fst

/-- A chat message: a dict with role and content fields in app.py. -/
structure ChatMessage where
  role : String
  content : String
deriving Repr, DecidableEq

/-- Session conversation state: st.session_state.messages and
st.session_state.current_persona. -/
structure ConvState where
  messages : List ChatMessage
  current_persona : String
deriving Repr, DecidableEq

/-- The seeded welcome message of the initial session state. -/
def welcomeMessage : ChatMessage :=
  ⟨"assistant", "👋 **Welcome!** I'm your multi-persona Company Research Assistant. Select your role from the sidebar to get started with customized insights!"⟩

/-- Initial session state of app.py. -/
def initState : ConvState :=
  { messages := [welcomeMessage], current_persona := "sales_executive" }

/-- The prompts dict defined inside generate_ai_response. -/
def prompts : List (String × String) :=
  [ ("sales_executive", "You are a sales executive. Focus on revenue opportunities, sales metrics, pipeline value, conversion rates, and actionable sales strategies. Provide specific numbers and revenue projections.")
  , ("market_researcher", "You are a market researcher. Focus on market size, growth rates, competitive analysis, consumer trends, and market share data. Provide comprehensive market intelligence.")
  , ("financial_analyst", "You are a financial analyst. Focus on financial metrics, ROI calculations, risk assessment, valuation, and investment recommendations. Provide precise financial numbers.")
  , ("strategic_planner", "You are a strategic planner. Focus on long-term strategy, growth opportunities, strategic initiatives, and implementation roadmaps. Provide forward-looking insights.")
  , ("product_manager", "You are a product manager. Focus on product opportunities, feature analysis, user needs, and product roadmap. Provide user-centric recommendations.") ]

/-- The fixed text of the system prompt between the role directive and the
joined priority list (from the f-string in generate_ai_response). -/
def promptTail : String :=
  "\n\nAlways provide specific numbers, metrics, and data-driven insights. Use the persona's focus areas: "

/-- One outbound request to the chat-completion endpoint, with the fields
passed to openai.ChatCompletion.create. -/
structure ApiRequest where
  model : String
  messages : List ChatMessage
  temperature : ℚ
  max_tokens : Nat
deriving Repr, DecidableEq

/-- The single request generate_ai_response builds when a credential is
configured. -/
def mkRequest (directive : String) (p : Persona) (user_input : String) : ApiRequest :=
  { model := "mistralai/mixtral-8x7b-instruct"
  , messages := [⟨"system", directive ++ promptTail ++ String.intercalate ", " p.priorities⟩,
                 ⟨"user", user_input⟩]
  , temperature := (0.3 : ℚ)
  , max_tokens := 1000 }

/-- The offline fallback text after its two persona-derived openings.
Python indexes priorities at 0; every registry persona has three
priorities, so the headD default below is never taken on registry keys. -/
def fallbackStatic : String :=
  ". Based on typical industry data:\n\n- **Key Metric:** 15-25% growth potential\n- **Opportunity Size:** $2-5M addressable market\n- **Implementation Timeline:** 6-12 months\n- **Success Probability:** 70-80%\n\n*Note: Add your OpenRouter API key to secrets.toml for AI-powered analysis*"

/-- The templated fallback returned when no API key is configured. -/
def fallbackResponse (p : Persona) : String :=
  "**" ++ p.name ++ " Analysis:** As a " ++ p.name.toLower ++
    ", I would analyze this focusing on " ++ p.priorities.headD "" ++ fallbackStatic

/-- The catch-all error text produced by the except branch of
generate_ai_response. -/
def errorText (e : String) : String :=
  "**Analysis:** I encountered an error processing your request. Error: " ++ e

/-- Failures that escape generate_ai_response: the KeyError raised by a
persona key outside the registry (the UnknownPersonaError of the spec). -/
inductive GenError where
  | unknownPersona (key : String)
deriving Repr, DecidableEq

/-- Embedding of generate_ai_response. The result pairs the returned string
with the list of outbound requests actually issued (the network trace);
the oracle argument stands for the external completion service, returning
either a completion text or a failure reason (any exception the call can
raise). Python checks `if api_key:`, string truthiness, so the credential
test is emptiness of api_key. -/
def generate_ai_response (api_key : String) (oracle : ApiRequest → Except String String)
    (user_input persona_key : String) : Except GenError (String × List ApiRequest) :=
  match dictLookup USER_PERSONAS persona_key with
  | none => Except.error (GenError.unknownPersona persona_key)
  | some persona =>
    match dictLookup prompts persona_key with
    | none => Except.error (GenError.unknownPersona persona_key)
    | some directive =>
      if api_key = "" then
        Except.ok (fallbackResponse persona, [])
      else
        match oracle (mkRequest directive persona user_input) with
        | Except.ok t => Except.ok (t, [mkRequest directive persona user_input])
        | Except.error e => Except.ok (errorText e, [mkRequest directive persona user_input])

/-- Figure descriptors: the five plotly figures create_persona_chart can
build, with their static data and layout fields from app.py. -/
inductive ChartFigure where
  | funnel (labels : List String) (values : List Nat) (textinfo : String)
      (colors : List String) (title : String) (height : Nat)
  | scatterpolar (categories : List String) (values : List Nat)
      (rangeTop : Nat) (title : String) (height : Nat)
  | groupedBar (years : List String) (revenue : List Nat) (profit : List Nat)
      (title : String) (height : Nat)
  | waterfall (phases : List String) (resources : List Nat)
      (title : String) (height : Nat)
  | scatter (features : List String) (impact : List Nat) (effort : List Nat)
      (title : String) (height : Nat)
deriving Repr, DecidableEq

/-- Embedding of create_persona_chart. The first flag is PLOTLY_AVAILABLE;
the second models whether the figure construction inside the try block
raises (any exception there is caught and turned into None by the except
branch, so a failing build yields none). The final else of the key
dispatch is the product_manager figure, as in the source. -/
def create_persona_chart (plotly_available build_fails : Bool)
    (persona_key : String) : Option ChartFigure :=
  if plotly_available = false then none
  else if build_fails then none
  else some (
    if persona_key = "sales_executive" then
      ChartFigure.funnel ["Leads", "MQLs", "SQLs", "Opportunities", "Closed Won"]
        [1000, 800, 400, 200, 80] "value+percent initial"
        ["#1f77b4", "#ff7f0e", "#2ca02c", "#d62728", "#9467bd"]
        "💰 Sales Funnel Performance" 400
    else if persona_key = "market_researcher" then
      ChartFigure.scatterpolar ["Market Share", "Growth Rate", "Customer Sat", "Brand Awareness"]
        [25, 18, 82, 65] 100 "📊 Market Position Analysis" 400
    else if persona_key = "financial_analyst" then
      ChartFigure.groupedBar ["2022", "2023", "2024", "2025"]
        [500, 650, 820, 1050] [75, 110, 160, 220] "💹 Financial Performance" 400
    else if persona_key = "strategic_planner" then
      ChartFigure.waterfall ["Foundation", "Growth", "Expansion", "Leadership"]
        [1, 2, 2, 1] "🛣️ Strategic Implementation Timeline" 400
    else
      ChartFigure.scatter ["Feature A", "Feature B", "Feature C", "Feature D"]
        [85, 70, 60, 45] [30, 50, 70, 40] "🎯 Feature Impact vs Effort Analysis" 400)

/-- A data table: the pandas DataFrame of create_persona_data, represented
as its column dict (column name paired with the column values). -/
def DataTable : Type := List (String × List String)

instance : DecidableEq DataTable := by
  unfold DataTable
  infer_instance

/-- Embedding of create_persona_data. The final else of the key dispatch is
the product_manager table, as in the source. -/
def create_persona_data (persona_key : String) : DataTable :=
  if persona_key = "sales_executive" then
    [ ("Metric", ["Pipeline Value", "Conversion Rate", "Avg Deal Size", "Sales Cycle"])
    , ("Value", ["$2.5M", "22%", "$125K", "67 days"])
    , ("Target", ["$3.0M", "25%", "$140K", "60 days"]) ]
  else if persona_key = "market_researcher" then
    [ ("Metric", ["Market Size", "Growth Rate", "Market Share", "Competitors"])
    , ("Value", ["$15B", "18%", "12%", "8 major"])
    , ("Trend", ["Growing", "Accelerating", "Increasing", "Consolidating"]) ]
  else if persona_key = "financial_analyst" then
    [ ("Metric", ["Revenue", "Profit Margin", "ROI", "Valuation"])
    , ("Value", ["$850M", "18.5%", "22%", "$4.2B"])
    , ("YoY Growth", ["+24%", "+2.1%", "+3.5%", "+28%"]) ]
  else if persona_key = "strategic_planner" then
    [ ("Initiative", ["Market Expansion", "Product Innovation", "Digital Transformation"])
    , ("Timeline", ["6-12 months", "12-18 months", "18-24 months"])
    , ("Investment", ["$5M", "$8M", "$12M"])
    , ("ROI Potential", ["35%", "42%", "28%"]) ]
  else
    [ ("Feature", ["AI Integration", "Mobile App", "API Access", "Analytics"])
    , ("User Impact", ["High", "Medium", "Low", "High"])
    , ("Development Effort", ["High", "Medium", "Low", "Medium"])
    , ("Priority", ["P0", "P1", "P2", "P0"]) ]

/-- The analytics panel render (lines 319-331 of app.py): it reads the
current persona key from the session state and computes chart and table
from it, returning the state untouched. -/
def renderAnalytics (plotly_available build_fails : Bool) (s : ConvState) :
    ConvState × Option ChartFigure × DataTable :=
  (s, create_persona_chart plotly_available build_fails s.current_persona,
      create_persona_data s.current_persona)

/-- Whether the char list pat occurs at the start of s (helper for the
Python substring operator). -/
def startsWithSeq : List Char → List Char → Bool
  | _, [] => true
  | [], _ :: _ => false
  | c :: cs, p :: ps => if c = p then startsWithSeq cs ps else false

/-- Whether the char list pat occurs contiguously anywhere in s. -/
def containsSeq : List Char → List Char → Bool
  | [], pat => pat.isEmpty
  | c :: cs, pat => startsWithSeq (c :: cs) pat || containsSeq cs pat

/-- The Python substring operator `pat in s` on strings. -/
def strContains (s pat : String) : Bool :=
  containsSeq s.data pat.data

/-- The fixed analysis-trigger keyword list of the chat input handler. -/
def triggerKeywords : List String := ["analyze", "research", "data", "metrics"]

/-- Embedding of the module-level chat input handler (lines 338-363 of
app.py). The guard `if user_input:` is string truthiness, so the empty
submission leaves the state untouched. Otherwise one user message is
appended, generate_ai_response is called with the current persona, and its
result is appended as one assistant message; the returned flag records
whether the keyword check fired and the chart and table were additionally
surfaced (a display effect only). A KeyError escaping generate_ai_response
aborts the script run, modelled by the error branch. -/
def handleChatInput (api_key : String) (oracle : ApiRequest → Except String String)
    (s : ConvState) (user_input : String) : Except GenError (ConvState × Bool) :=
  if user_input = "" then Except.ok (s, false)
  else
    match generate_ai_response api_key oracle user_input s.current_persona with
    | Except.error e => Except.error e
    | Except.ok (response, _) =>
      Except.ok
        ({ s with messages := s.messages ++ [⟨"user", user_input⟩, ⟨"assistant", response⟩] },
         triggerKeywords.any (fun kw => strContains user_input.toLower kw))

/-- The assistant message announcing a persona switch (lines 295-298 of
app.py). -/
def announceMessage (p : Persona) : ChatMessage :=
  ⟨"assistant",
    "🔄 **Switched to " ++ p.icon ++ " " ++ p.name ++ " Mode**\n\n*" ++
      p.description ++ "*\n\n**Focus areas:** " ++ String.intercalate ", " p.priorities⟩

/-- Embedding of the module-level persona switch handler (lines 293-298 of
app.py): a selection equal to the current persona does nothing; otherwise
the current persona is set and one announcement message is appended. The
radio widget only ever produces registry keys; a key outside the registry
would raise a KeyError, modelled as none. -/
def switchPersona (s : ConvState) (newKey : String) : Option ConvState :=
  if newKey = s.current_persona then some s
  else
    match dictLookup USER_PERSONAS newKey with
    | some p => some ⟨s.messages ++ [announceMessage p], newKey⟩
    | none => none

/-- Folds a sequence of persona-switch selections over a state. -/
def runSwitches : ConvState → List String → Option ConvState
  | s, [] => some s
  | s, k :: rest =>
    match switchPersona s k with
    | none => none
    | some s2 => runSwitches s2 rest

/-- Number of switch events in the list that differ from the then-current
key, starting from the given current key. -/
def countEffective : String → List String → Nat
  | _, [] => 0
  | cur, k :: rest => if k = cur then countEffective cur rest else countEffective k rest + 1

example : registryKeys = ["sales_executive", "market_researcher", "financial_analyst", "strategic_planner", "product_manager"] := by decide

example : strContains "please analyze the market" "analyze" = true := by decide

example : strContains "hello there" "analyze" = false := by decide

example : runSwitches initState ["market_researcher", "market_researcher"] =
    some ⟨[welcomeMessage, announceMessage
      { name := "Market Researcher"
      , description := "Focuses on market trends and competitive analysis"
      , priorities := ["market share", "industry trends", "competitive landscape"]
      , icon := "📊" }], "market_researcher"⟩ := rfl

example : Except.map Prod.fst (generate_ai_response "" (fun _ => Except.error "x") "hi" "ceo") = Except.error (GenError.unknownPersona "ceo") := rfl

/-- Data of a concatenation of strings is the concatenation of the data. -/
theorem strData_append (a b : String) : (a ++ b).data = a.data ++ b.data := rfl

/-- A key occurring among the keys of an association list has a lookup
value. -/
theorem dictLookup_isSome_of_mem {α : Type} (l : List (String × α)) (k : String)
    (h : k ∈ l.map Prod.fst) : ∃ v, dictLookup l k = some v := by
  induction l with
  | nil => simp at h
  | cons hd tl ih =>
    by_cases hk : k = hd.1
    · exact ⟨hd.2, by simp [dictLookup, hk]⟩
    · have : k ∈ tl.map Prod.fst := by
        rcases List.mem_map.mp h with ⟨x, hx, hxk⟩
        rcases List.mem_cons.mp hx with rfl | hx2
        · exact absurd hxk.symm hk
        · exact List.mem_map.mpr ⟨x, hx2, hxk⟩
      obtain ⟨v, hv⟩ := ih this
      exact ⟨v, by simpa [dictLookup, hk] using hv⟩

/-- A key outside the keys of an association list has no lookup value. -/
theorem dictLookup_eq_none_of_not_mem {α : Type} (l : List (String × α)) (k : String)
    (h : k ∉ l.map Prod.fst) : dictLookup l k = none := by
  induction l with
  | nil => rfl
  | cons hd tl ih =>
    have hk : k ≠ hd.1 := fun hk => h (List.mem_map.mpr ⟨hd, List.mem_cons_self _ _, hk.symm⟩)
    have htl : k ∉ tl.map Prod.fst := fun hm => h (by simp [List.mem_map] at hm ⊢; tauto)
    simpa [dictLookup, hk] using ih htl

/-- Every registry key also has an entry in the prompts dict. -/
theorem prompts_lookup_of_mem (k : String) (h : k ∈ registryKeys) :
    ∃ d, dictLookup prompts k = some d := by
  have h5 : k = "sales_executive" ∨ k = "market_researcher" ∨ k = "financial_analyst" ∨
      k = "strategic_planner" ∨ k = "product_manager" := by
    simpa [registryKeys, USER_PERSONAS] using h
  rcases h5 with rfl | rfl | rfl | rfl | rfl <;> exact ⟨_, rfl⟩

/-- Evaluation of generate_ai_response once the two dict lookups are
resolved. -/
theorem generate_eval (api_key : String) (oracle : ApiRequest → Except String String)
    (user_input persona_key : String) (p : Persona) (d : String)
    (hp : dictLookup USER_PERSONAS persona_key = some p)
    (hd : dictLookup prompts persona_key = some d) :
    generate_ai_response api_key oracle user_input persona_key =
      (if api_key = "" then Except.ok (fallbackResponse p, [])
       else
        match oracle (mkRequest d p user_input) with
        | Except.ok t => Except.ok (t, [mkRequest d p user_input])
        | Except.error e => Except.ok (errorText e, [mkRequest d p user_input])) := by
  unfold generate_ai_response
  rw [hp, hd]

/-- The fallback response always starts with two asterisks, hence is
non-empty. -/
theorem fallbackResponse_ne_empty (p : Persona) : fallbackResponse p ≠ "" := by
  intro h
  have hd : (fallbackResponse p).data = [] := by rw [h]
  rw [show fallbackResponse p =
      "**" ++ (p.name ++ (" Analysis:** As a " ++ (p.name.toLower ++
        (", I would analyze this focusing on " ++ (p.priorities.headD "" ++ fallbackStatic)))))
    from by simp [fallbackResponse, String.append_assoc]] at hd
  simp [strData_append] at hd

/-- The error text always starts with two asterisks, hence is non-empty. -/
theorem errorText_ne_empty (e : String) : errorText e ≠ "" := by
  intro h
  have hd : (errorText e).data = [] := by rw [h]
  rw [show errorText e =
      "**Analysis:** I encountered an error processing your request. Error: " ++ e from rfl] at hd
  simp [strData_append] at hd

/-- The display name of the persona occurs in the fallback response. -/
theorem fallbackResponse_has_name (p : Persona) :
    ∃ pre suf, (fallbackResponse p).data = pre ++ p.name.data ++ suf := by
  refine ⟨"**".data,
    (" Analysis:** As a " ++ (p.name.toLower ++ (", I would analyze this focusing on " ++
      (p.priorities.headD "" ++ fallbackStatic)))).data, ?_⟩
  rw [show fallbackResponse p =
      ("**" ++ p.name) ++ (" Analysis:** As a " ++ (p.name.toLower ++
        (", I would analyze this focusing on " ++ (p.priorities.headD "" ++ fallbackStatic))))
    from by simp [fallbackResponse, String.append_assoc]]
  simp [strData_append]

/-- The first priority topic of the persona occurs in the fallback
response. -/
theorem fallbackResponse_has_first_priority (p : Persona) :
    ∃ pre suf, (fallbackResponse p).data = pre ++ (p.priorities.headD "").data ++ suf := by
  refine ⟨("**" ++ (p.name ++ (" Analysis:** As a " ++ (p.name.toLower ++
      ", I would analyze this focusing on ")))).data, fallbackStatic.data, ?_⟩
  rw [show fallbackResponse p =
      ("**" ++ (p.name ++ (" Analysis:** As a " ++ (p.name.toLower ++
        ", I would analyze this focusing on ")))) ++ (p.priorities.headD "" ++ fallbackStatic)
    from by simp [fallbackResponse, String.append_assoc]]
  simp [strData_append]

/-- For any registry key generate_ai_response returns Except.ok. -/
theorem generate_ok_of_mem (api_key : String) (oracle : ApiRequest → Except String String)
    (user_input persona_key : String) (h : persona_key ∈ registryKeys) :
    ∃ r reqs, generate_ai_response api_key oracle user_input persona_key =
      Except.ok (r, reqs) := by
  obtain ⟨p, hp⟩ := dictLookup_isSome_of_mem USER_PERSONAS persona_key (by simpa [registryKeys] using h)
  obtain ⟨d, hd⟩ := prompts_lookup_of_mem persona_key h
  rw [generate_eval api_key oracle user_input persona_key p d hp hd]
  by_cases hk : api_key = ""
  · exact ⟨fallbackResponse p, [], by simp [hk]⟩
  · rw [if_neg hk]
    cases oracle (mkRequest d p user_input) with
    | ok t => exact ⟨_, _, rfl⟩
    | error e => exact ⟨_, _, rfl⟩

/-- startsWithSeq decides occurrence of the pattern at the head. -/
theorem startsWithSeq_iff (pat s : List Char) :
    startsWithSeq s pat = true ↔ ∃ suf, s = pat ++ suf := by
  induction pat generalizing s with
  | nil => simp [startsWithSeq]
  | cons p ps ih =>
    cases s with
    | nil => simp [startsWithSeq]
    | cons c cs =>
      by_cases hc : c = p
      · subst hc
        simp [startsWithSeq, ih]
      · simp [startsWithSeq, hc]

/-- containsSeq decides contiguous occurrence of the pattern anywhere. -/
theorem containsSeq_iff (s pat : List Char) :
    containsSeq s pat = true ↔ ∃ pre suf, s = pre ++ pat ++ suf := by
  induction s with
  | nil =>
    constructor
    · intro h
      have hpat : pat = [] := by
        cases pat with
        | nil => rfl
        | cons a as => simp [containsSeq] at h
      exact ⟨[], [], by simp [hpat]⟩
    · rintro ⟨pre, suf, h⟩
      have h2 : pre ++ pat ++ suf = [] := h.symm
      rcases List.append_eq_nil.mp h2 with ⟨h3, h4⟩
      rcases List.append_eq_nil.mp h3 with ⟨h5, h6⟩
      subst h6
      rfl
  | cons c cs ih =>
    rw [show containsSeq (c :: cs) pat = (startsWithSeq (c :: cs) pat || containsSeq cs pat)
      from rfl, Bool.or_eq_true, startsWithSeq_iff, ih]
    constructor
    · rintro (⟨suf, hsuf⟩ | ⟨pre, suf, h⟩)
      · exact ⟨[], suf, by simpa using hsuf⟩
      · exact ⟨c :: pre, suf, by simp [h]⟩
    · rintro ⟨pre, suf, h⟩
      cases pre with
      | nil => exact Or.inl ⟨suf, by simpa using h⟩
      | cons c2 pre2 =>
        simp at h
        exact Or.inr ⟨pre2, suf, by rw [List.append_assoc]; exact h.2⟩

/-- The Python substring operator holds exactly when the pattern occurs
contiguously in the string. -/
theorem strContains_iff (s pat : String) :
    strContains s pat = true ↔ ∃ pre suf, s.data = pre ++ pat.data ++ suf :=
  containsSeq_iff s.data pat.data

/-- Folding switch selections drawn from the registry never fails, only
appends announcement messages, appends exactly one announcement per
selection that differs from the then-current key, and keeps the current
key inside the registry. -/
theorem runSwitches_spec (evs : List String) :
    ∀ s : ConvState, s.current_persona ∈ registryKeys →
      (∀ k ∈ evs, k ∈ registryKeys) →
      ∃ s2 extra, runSwitches s evs = some s2 ∧
        s2.messages = s.messages ++ extra ∧
        extra.length = countEffective s.current_persona evs ∧
        s2.current_persona ∈ registryKeys ∧
        (∀ m ∈ extra, ∃ p, m = announceMessage p) := by
  induction evs with
  | nil =>
    intro s hcur _
    exact ⟨s, [], rfl, by simp, by simp [countEffective], hcur, by simp⟩
  | cons k rest ih =>
    intro s hcur hall
    have hrest : ∀ x ∈ rest, x ∈ registryKeys := fun x hx => hall x (List.mem_cons_of_mem _ hx)
    by_cases hk : k = s.current_persona
    · have hsw : switchPersona s k = some s := by simp [switchPersona, hk]
      obtain ⟨s2, extra, h1, h2, h3, h4, h5⟩ := ih s hcur hrest
      refine ⟨s2, extra, ?_, h2, ?_, h4, h5⟩
      · simp [runSwitches, hsw, h1]
      · simpa [countEffective, hk] using h3
    · have hkreg : k ∈ registryKeys := hall k (List.mem_cons_self _ _)
      obtain ⟨p, hp⟩ := dictLookup_isSome_of_mem USER_PERSONAS k (by simpa [registryKeys] using hkreg)
      have hsw : switchPersona s k = some ⟨s.messages ++ [announceMessage p], k⟩ := by
        simp [switchPersona, hk, hp]
      obtain ⟨s2, extra, h1, h2, h3, h4, h5⟩ :=
        ih ⟨s.messages ++ [announceMessage p], k⟩ hkreg hrest
      refine ⟨s2, announceMessage p :: extra, ?_, ?_, ?_, h4, ?_⟩
      · simp [runSwitches, hsw, h1]
      · simpa [List.append_assoc] using h2
      · simp only [List.length_cons, countEffective, if_neg hk]
        simpa using h3
      · intro m hm
        rcases List.mem_cons.mp hm with rfl | hm2
        · exact ⟨p, rfl⟩
        · exact h5 m hm2

/-- Any key missing the four explicitly matched cases reaches the final
else of create_persona_data, the product_manager table. -/
theorem create_persona_data_default (k : String)
    (h1 : k ≠ "sales_executive") (h2 : k ≠ "market_researcher")
    (h3 : k ≠ "financial_analyst") (h4 : k ≠ "strategic_planner") :
    create_persona_data k = create_persona_data "product_manager" := by
  simp [create_persona_data, h1, h2, h3, h4]

/-- Any key missing the four explicitly matched cases reaches the final
else of create_persona_chart, the product_manager figure. -/
theorem create_persona_chart_default (avail fails : Bool) (k : String)
    (h1 : k ≠ "sales_executive") (h2 : k ≠ "market_researcher")
    (h3 : k ≠ "financial_analyst") (h4 : k ≠ "strategic_planner") :
    create_persona_chart avail fails k = create_persona_chart avail fails "product_manager" := by
  simp [create_persona_chart, h1, h2, h3, h4]

/-- C1 (amended): for every input string and every registry persona key,
generate_ai_response never raises — it always returns Except.ok with the
displayable text — and the returned string can only be empty in the one
case where the external completion call succeeded and returned the empty
completion, which is passed through verbatim; with no credential or a
failed call the result is always non-empty. -/
theorem generate_total_returns_text (api_key : String)
    (oracle : ApiRequest → Except String String) (user_input persona_key : String)
    (h : persona_key ∈ registryKeys) :
    ∃ out : String × List ApiRequest,
      generate_ai_response api_key oracle user_input persona_key = Except.ok out ∧
      (out.1 = "" → ∃ req, out.2 = [req] ∧ oracle req = Except.ok "") := by
  obtain ⟨p, hp⟩ := dictLookup_isSome_of_mem USER_PERSONAS persona_key
    (by simpa [registryKeys] using h)
  obtain ⟨d, hd⟩ := prompts_lookup_of_mem persona_key h
  rw [generate_eval api_key oracle user_input persona_key p d hp hd]
  by_cases hk : api_key = ""
  · refine ⟨(fallbackResponse p, []), by simp [hk], ?_⟩
    intro he
    exact absurd he (fallbackResponse_ne_empty p)
  · rw [if_neg hk]
    cases ho : oracle (mkRequest d p user_input) with
    | ok t =>
      refine ⟨(t, [mkRequest d p user_input]), rfl, ?_⟩
      intro he
      exact ⟨mkRequest d p user_input, rfl, by rw [ho]; exact congrArg Except.ok he⟩
    | error e =>
      refine ⟨(errorText e, [mkRequest d p user_input]), rfl, ?_⟩
      intro he
      exact absurd he (errorText_ne_empty e)

/-- Witness for C1 at a concrete input: no credential, a failing oracle,
and a registry key. -/
theorem generate_total_returns_text_witness :
    ∃ out : String × List ApiRequest,
      generate_ai_response "" (fun _ => Except.error "boom") "hello" "sales_executive" =
        Except.ok out ∧
      (out.1 = "" → ∃ req, out.2 = [req] ∧
        (fun _ : ApiRequest => (Except.error "boom" : Except String String)) req =
          Except.ok "") :=
  generate_total_returns_text "" (fun _ => Except.error "boom") "hello" "sales_executive"
    (by decide)

/-- C1 counterexample: with a configured credential and an external call
that succeeds with the empty completion, generate_ai_response returns the
empty string, so the claim that it always returns a non-empty string fails
as stated. -/
theorem generate_empty_completion_cex :
    Except.map Prod.fst
        (generate_ai_response "sk" (fun _ => Except.ok "") "hi" "sales_executive") =
      Except.ok "" := rfl

/-- C2: with no API credential, generate_ai_response deterministically
returns the templated fallback built from the persona display name and its
first priority topic, containing the display name, performing no network
call (the request trace is empty, for every oracle), and non-empty. -/
theorem no_credential_fallback (oracle : ApiRequest → Except String String)
    (user_input persona_key : String) (h : persona_key ∈ registryKeys) :
    ∃ p, dictLookup USER_PERSONAS persona_key = some p ∧
      generate_ai_response "" oracle user_input persona_key =
        Except.ok (fallbackResponse p, []) ∧
      (∃ pre suf, (fallbackResponse p).data = pre ++ p.name.data ++ suf) ∧
      (∃ pre suf, (fallbackResponse p).data = pre ++ (p.priorities.headD "").data ++ suf) ∧
      fallbackResponse p ≠ "" := by
  obtain ⟨p, hp⟩ := dictLookup_isSome_of_mem USER_PERSONAS persona_key
    (by simpa [registryKeys] using h)
  obtain ⟨d, hd⟩ := prompts_lookup_of_mem persona_key h
  exact ⟨p, hp,
    by rw [generate_eval "" oracle user_input persona_key p d hp hd]; simp,
    fallbackResponse_has_name p, fallbackResponse_has_first_priority p,
    fallbackResponse_ne_empty p⟩

/-- Witness for C2 at a concrete input. -/
theorem no_credential_fallback_witness :
    ∃ p, dictLookup USER_PERSONAS "market_researcher" = some p ∧
      generate_ai_response "" (fun _ => Except.error "x") "tell me about the market"
          "market_researcher" =
        Except.ok (fallbackResponse p, []) ∧
      (∃ pre suf, (fallbackResponse p).data = pre ++ p.name.data ++ suf) ∧
      (∃ pre suf, (fallbackResponse p).data = pre ++ (p.priorities.headD "").data ++ suf) ∧
      fallbackResponse p ≠ "" :=
  no_credential_fallback (fun _ => Except.error "x") "tell me about the market"
    "market_researcher" (by decide)

/-- C5: a persona key outside the fixed registry makes generate_ai_response
fail with the unknown-persona error (the KeyError of the source), which is
propagated to the caller, not converted to a returned string. -/
theorem unknown_persona_error (api_key : String)
    (oracle : ApiRequest → Except String String) (user_input persona_key : String)
    (h : persona_key ∉ registryKeys) :
    generate_ai_response api_key oracle user_input persona_key =
      Except.error (GenError.unknownPersona persona_key) := by
  have hn : dictLookup USER_PERSONAS persona_key = none :=
    dictLookup_eq_none_of_not_mem _ _ (by simpa [registryKeys] using h)
  unfold generate_ai_response
  rw [hn]

/-- Witness for C5 at a concrete non-registry key. -/
theorem unknown_persona_error_witness :
    generate_ai_response "sk" (fun _ => Except.ok "text") "hi" "ceo" =
      Except.error (GenError.unknownPersona "ceo") :=
  unknown_persona_error "sk" (fun _ => Except.ok "text") "hi" "ceo" (by decide)

/-- C6: with a configured credential, generate_ai_response issues exactly
one request, carrying the fixed model identifier, exactly two messages
(one system message equal to the persona role directive followed by the
fixed connective text and the comma-joined priority topics, and one user
message holding solely the submitted text — no prior turns), the fixed
temperature 0.3 and the fixed max-token cap 1000. -/
theorem api_request_shape (api_key : String)
    (oracle : ApiRequest → Except String String) (user_input persona_key : String)
    (hmem : persona_key ∈ registryKeys) (hcred : api_key ≠ "") :
    ∃ p d out, dictLookup USER_PERSONAS persona_key = some p ∧
      dictLookup prompts persona_key = some d ∧
      generate_ai_response api_key oracle user_input persona_key = Except.ok out ∧
      out.2 = [{ model := "mistralai/mixtral-8x7b-instruct"
               , messages := [⟨"system", d ++ promptTail ++ String.intercalate ", " p.priorities⟩,
                              ⟨"user", user_input⟩]
               , temperature := (0.3 : ℚ)
               , max_tokens := 1000 }] := by
  obtain ⟨p, hp⟩ := dictLookup_isSome_of_mem USER_PERSONAS persona_key
    (by simpa [registryKeys] using hmem)
  obtain ⟨d, hd⟩ := prompts_lookup_of_mem persona_key hmem
  refine ⟨p, d, ?_⟩
  rw [generate_eval api_key oracle user_input persona_key p d hp hd, if_neg hcred]
  cases ho : oracle (mkRequest d p user_input) with
  | ok t => exact ⟨(t, [mkRequest d p user_input]), hp, hd, rfl, rfl⟩
  | error e => exact ⟨(errorText e, [mkRequest d p user_input]), hp, hd, rfl, rfl⟩

/-- Witness for C6 at a concrete input. -/
theorem api_request_shape_witness :
    ∃ p d out, dictLookup USER_PERSONAS "financial_analyst" = some p ∧
      dictLookup prompts "financial_analyst" = some d ∧
      generate_ai_response "sk" (fun _ => Except.ok "text") "hi" "financial_analyst" =
        Except.ok out ∧
      out.2 = [{ model := "mistralai/mixtral-8x7b-instruct"
               , messages := [⟨"system", d ++ promptTail ++ String.intercalate ", " p.priorities⟩,
                              ⟨"user", "hi"⟩]
               , temperature := (0.3 : ℚ)
               , max_tokens := 1000 }] :=
  api_request_shape "sk" (fun _ => Except.ok "text") "hi" "financial_analyst"
    (by decide) (by decide)

/-- C3: submitting non-empty text appends exactly two messages to the log —
first one user message carrying the submitted text, then one assistant
message carrying the generator result, in that order — so the log length
grows by exactly 2 and the active persona is unchanged. -/
theorem submit_appends_two (api_key : String)
    (oracle : ApiRequest → Except String String) (s : ConvState) (user_input : String)
    (hkey : s.current_persona ∈ registryKeys) (hne : user_input ≠ "") :
    ∃ r reqs surf s2,
      generate_ai_response api_key oracle user_input s.current_persona = Except.ok (r, reqs) ∧
      handleChatInput api_key oracle s user_input = Except.ok (s2, surf) ∧
      s2.messages = s.messages ++ [⟨"user", user_input⟩, ⟨"assistant", r⟩] ∧
      s2.messages.length = s.messages.length + 2 ∧
      s2.current_persona = s.current_persona := by
  obtain ⟨r, reqs, hg⟩ := generate_ok_of_mem api_key oracle user_input s.current_persona hkey
  refine ⟨r, reqs, triggerKeywords.any (fun kw => strContains user_input.toLower kw),
    { s with messages := s.messages ++ [⟨"user", user_input⟩, ⟨"assistant", r⟩] },
    hg, ?_, by simp, by simp, rfl⟩
  simp [handleChatInput, hne, hg]

/-- Witness for C3 at a concrete input. -/
theorem submit_appends_two_witness :
    ∃ r reqs surf s2,
      generate_ai_response "" (fun _ => Except.error "boom") "hello" initState.current_persona =
        Except.ok (r, reqs) ∧
      handleChatInput "" (fun _ => Except.error "boom") initState "hello" =
        Except.ok (s2, surf) ∧
      s2.messages = initState.messages ++ [⟨"user", "hello"⟩, ⟨"assistant", r⟩] ∧
      s2.messages.length = initState.messages.length + 2 ∧
      s2.current_persona = initState.current_persona :=
  submit_appends_two "" (fun _ => Except.error "boom") initState "hello"
    (by decide) (by decide)

/-- C4: over every sequence of switch selections drawn from the registry
(the radio widget offers exactly the registry keys), the run succeeds, the
log only grows and only by announcement messages, the number of appended
announcements equals the number of selections that differed from the
then-current key, and the active key stays in the registry; moreover a
selection equal to the current key is a no-op and a different registry
selection sets the key and appends exactly one announcement. -/
theorem switch_sequence_spec (s : ConvState) (evs : List String)
    (hcur : s.current_persona ∈ registryKeys) (hall : ∀ k ∈ evs, k ∈ registryKeys) :
    (∃ s2 extra, runSwitches s evs = some s2 ∧
      s2.messages = s.messages ++ extra ∧
      extra.length = countEffective s.current_persona evs ∧
      s2.current_persona ∈ registryKeys ∧
      (∀ m ∈ extra, ∃ p, m = announceMessage p)) ∧
    switchPersona s s.current_persona = some s ∧
    (∀ k p, k ≠ s.current_persona → dictLookup USER_PERSONAS k = some p →
      switchPersona s k = some ⟨s.messages ++ [announceMessage p], k⟩) := by
  refine ⟨runSwitches_spec evs s hcur hall, by simp [switchPersona], ?_⟩
  intro k p hk hp
  simp [switchPersona, hk, hp]

/-- Witness for C4 at a concrete state and switch sequence (an effective
switch, a no-op repeat, and a switch back). -/
theorem switch_sequence_spec_witness :
    (∃ s2 extra,
      runSwitches initState ["market_researcher", "market_researcher", "sales_executive"] =
        some s2 ∧
      s2.messages = initState.messages ++ extra ∧
      extra.length = countEffective initState.current_persona
        ["market_researcher", "market_researcher", "sales_executive"] ∧
      s2.current_persona ∈ registryKeys ∧
      (∀ m ∈ extra, ∃ p, m = announceMessage p)) ∧
    switchPersona initState initState.current_persona = some initState ∧
    (∀ k p, k ≠ initState.current_persona → dictLookup USER_PERSONAS k = some p →
      switchPersona initState k = some ⟨initState.messages ++ [announceMessage p], k⟩) :=
  switch_sequence_spec initState ["market_researcher", "market_researcher", "sales_executive"]
    (by decide) (by decide)

/-- C9: the chart-and-table surfacing flag of the submit handler fires
exactly when the lowercased submitted text contains one of the fixed
keywords as a substring, and the conversation state receives the same two
appended messages whether or not the flag fired. -/
theorem submit_surfacing (api_key : String)
    (oracle : ApiRequest → Except String String) (s : ConvState) (user_input : String)
    (hkey : s.current_persona ∈ registryKeys) (hne : user_input ≠ "") :
    ∃ r s2 surf,
      handleChatInput api_key oracle s user_input = Except.ok (s2, surf) ∧
      s2.messages = s.messages ++ [⟨"user", user_input⟩, ⟨"assistant", r⟩] ∧
      s2.current_persona = s.current_persona ∧
      (surf = true ↔ ∃ kw ∈ triggerKeywords, ∃ pre suf,
        user_input.toLower.data = pre ++ kw.data ++ suf) := by
  obtain ⟨r, reqs, hg⟩ := generate_ok_of_mem api_key oracle user_input s.current_persona hkey
  refine ⟨r, { s with messages := s.messages ++ [⟨"user", user_input⟩, ⟨"assistant", r⟩] },
    triggerKeywords.any (fun kw => strContains user_input.toLower kw),
    by simp [handleChatInput, hne, hg], by simp, rfl, ?_⟩
  rw [List.any_eq_true]
  constructor
  · rintro ⟨kw, hkw, hc⟩
    exact ⟨kw, hkw, (strContains_iff _ _).mp hc⟩
  · rintro ⟨kw, hkw, hc⟩
    exact ⟨kw, hkw, (strContains_iff _ _).mpr hc⟩

/-- Witness for C9 at a concrete input containing a trigger keyword. -/
theorem submit_surfacing_witness :
    ∃ r s2 surf,
      handleChatInput "" (fun _ => Except.error "x") initState "Analyze the market DATA" =
        Except.ok (s2, surf) ∧
      s2.messages = initState.messages ++
        [⟨"user", "Analyze the market DATA"⟩, ⟨"assistant", r⟩] ∧
      s2.current_persona = initState.current_persona ∧
      (surf = true ↔ ∃ kw ∈ triggerKeywords, ∃ pre suf,
        ("Analyze the market DATA" : String).toLower.data = pre ++ kw.data ++ suf) :=
  submit_surfacing "" (fun _ => Except.error "x") initState "Analyze the market DATA"
    (by decide) (by decide)

/-- C7: create_persona_chart never raises: it returns none when plotly is
unavailable, returns none when the figure construction inside the try
block fails, and otherwise returns a figure. -/
theorem chart_degrades_to_none (persona_key : String) (avail fails : Bool) :
    create_persona_chart false fails persona_key = none ∧
    create_persona_chart avail true persona_key = none ∧
    (avail = true → fails = false →
      ∃ c, create_persona_chart avail fails persona_key = some c) := by
  refine ⟨by simp [create_persona_chart], ?_, ?_⟩
  · cases avail <;> simp [create_persona_chart]
  · rintro rfl rfl
    exact ⟨_, rfl⟩

/-- Witness for C7 at concrete flags and key. -/
theorem chart_degrades_to_none_witness :
    create_persona_chart false false "sales_executive" = none ∧
    create_persona_chart true true "sales_executive" = none ∧
    (true = true → false = false →
      ∃ c, create_persona_chart true false "sales_executive" = some c) :=
  chart_degrades_to_none "sales_executive" true false

/-- C8: the content providers are pure and deterministic — same key, same
structurally identical output — the analytics render leaves the
conversation state untouched, and every output is one of the five fixed
static tables respectively figures. -/
theorem content_providers_pure (persona_key : String) (avail fails : Bool) (s : ConvState) :
    create_persona_data persona_key = create_persona_data persona_key ∧
    create_persona_chart avail fails persona_key = create_persona_chart avail fails persona_key ∧
    renderAnalytics avail fails s =
      (s, create_persona_chart avail fails s.current_persona,
          create_persona_data s.current_persona) ∧
    create_persona_data persona_key ∈
      [create_persona_data "sales_executive", create_persona_data "market_researcher",
       create_persona_data "financial_analyst", create_persona_data "strategic_planner",
       create_persona_data "product_manager"] ∧
    create_persona_chart true false persona_key ∈
      [create_persona_chart true false "sales_executive",
       create_persona_chart true false "market_researcher",
       create_persona_chart true false "financial_analyst",
       create_persona_chart true false "strategic_planner",
       create_persona_chart true false "product_manager"] := by
  refine ⟨rfl, rfl, rfl, ?_, ?_⟩
  · by_cases h1 : persona_key = "sales_executive"
    · subst h1; simp
    · by_cases h2 : persona_key = "market_researcher"
      · subst h2; simp
      · by_cases h3 : persona_key = "financial_analyst"
        · subst h3; simp
        · by_cases h4 : persona_key = "strategic_planner"
          · subst h4; simp
          · rw [create_persona_data_default persona_key h1 h2 h3 h4]; simp
  · by_cases h1 : persona_key = "sales_executive"
    · subst h1; simp
    · by_cases h2 : persona_key = "market_researcher"
      · subst h2; simp
      · by_cases h3 : persona_key = "financial_analyst"
        · subst h3; simp
        · by_cases h4 : persona_key = "strategic_planner"
          · subst h4; simp
          · rw [create_persona_chart_default true false persona_key h1 h2 h3 h4]; simp

/-- C10: keys outside the five registry keys silently receive the
product_manager content: create_persona_data is total and yields the
product_manager table, and create_persona_chart with plotting available
yields the product_manager figure rather than failing or omitting. -/
theorem unknown_key_gets_pm_content (persona_key : String) (h : persona_key ∉ registryKeys) :
    create_persona_data persona_key = create_persona_data "product_manager" ∧
    create_persona_chart true false persona_key =
      create_persona_chart true false "product_manager" ∧
    ∃ c, create_persona_chart true false persona_key = some c := by
  have h5 : ¬(persona_key = "sales_executive" ∨ persona_key = "market_researcher" ∨
      persona_key = "financial_analyst" ∨ persona_key = "strategic_planner" ∨
      persona_key = "product_manager") := by
    simpa [registryKeys, USER_PERSONAS] using h
  push_neg at h5
  obtain ⟨h1, h2, h3, h4, _⟩ := h5
  exact ⟨create_persona_data_default persona_key h1 h2 h3 h4,
    create_persona_chart_default true false persona_key h1 h2 h3 h4, _, rfl⟩

/-- Witness for C10 at a concrete non-registry key. -/
theorem unknown_key_gets_pm_content_witness :
    create_persona_data "ceo" = create_persona_data "product_manager" ∧
    create_persona_chart true false "ceo" =
      create_persona_chart true false "product_manager" ∧
    ∃ c, create_persona_chart true false "ceo" = some c :=
  unknown_key_gets_pm_content "ceo" (by decide)
